import Mathlib

/-!
# The Neo4j "creating nodes and relationships" tutorial driver

Embedding of `GettingStarted/CreatingNodesAndRelationships/main.go`.

The driver is a straight line of seven steps, each of which talks to a graph
database through the `neoism` client, prints, and panics on failure.  The
embedding has two layers.

* The driver itself (`panicErr`, `createNode`, ..., `queryAllNodes`, `main`) is
  written against an arbitrary client `Client σ`: three calls
  (`CreateNode`, `AddLabel`, `Cypher`) that take the connection state and return
  the new state together with a result or an error.  Theorems about the control
  flow of the driver hold for every such client.
* `Neo4j` is one concrete client: a property graph, the meaning of each of the
  six Cypher statements of the driver as a function on that graph, and the
  decoding of response rows into the Go record the step declares.  It is used
  wherever a claim speaks about what the database contains or returns.
-/

namespace Neo4jTutorial

/-! ## Values shared by the driver and the client -/

/-- A scalar as it appears in a property map or a parameter map
(`interface{}` holding a Go `string` or `int`). -/
inductive Scalar where
  | str (s : String)
  | int (n : Int)
  deriving DecidableEq, Repr

/-- The type `neoism.Props` (`map[string]interface{}`), as an association list. -/
abbrev Props := List (String × Scalar)

/-- The part of `neoism.Node` the driver uses: the identity the database gave the
node and its property map `Data`. -/
structure Node where
  Id : Nat
  Data : Props
  deriving DecidableEq, Repr

/-- An error value returned by a client call. -/
abbrev Err := String

/-- The Go type of one field of a result record. -/
inductive GoType where
  | string
  | node
  deriving DecidableEq, Repr

/-- One field of the anonymous struct a step declares for its result rows: the Go
field name, the `json` tag if one is written, and the field type. -/
structure FieldDecl where
  name : String
  tag : Option String
  type : GoType
  deriving DecidableEq, Repr

/-- The struct type of the elements of `res`. -/
abbrev RecordType := List FieldDecl

/-- The value held by one field of a result record. -/
inductive Field where
  | str (s : String)
  | node (n : Node)
  deriving DecidableEq, Repr

/-- One element of `res`: the field values in declaration order. -/
abbrev Row := List Field

/-- Reads a `string` field of a row; a field that was never set holds `""`. -/
def Row.str (r : Row) (i : Nat) : String :=
  match r.get? i with
  | some (Field.str s) => s
  | _ => ""

/-- Reads a `neoism.Node` field of a row; a field that was never set holds the
zero node. -/
def Row.node (r : Row) (i : Nat) : Node :=
  match r.get? i with
  | some (Field.node n) => n
  | _ => ⟨0, []⟩

/-- The type `neoism.CypherQuery`: statement text, parameter map (`nil` is the
empty map) and the record type of the slice `Result` points to (`none` for
`Result: nil`). -/
structure CypherQuery where
  Statement : String
  Parameters : Props
  Result : Option RecordType
  deriving DecidableEq, Repr

/-- The database client the driver is linked against.  Every call takes the
connection state and returns the state after the call together with its result or
its error. -/
structure Client (σ : Type) where
  CreateNode : Props → σ → σ × Except Err Node
  AddLabel : Node → String → σ → σ × Except Err Unit
  Cypher : CypherQuery → σ → σ × Except Err (List Row)

/-! ## Process state, output and panics -/

/-- What a step hands to `fmt.Println` / `fmt.Printf`, kept as the values printed
rather than as formatted text. -/
inductive Printed where
  | createNode (data : Props)
  | queryNode (data : Props)
  | createMovie
  | createUnique (a rel b : String)
  | setNodeProperty (name dob : String)
  | queryMovies
  | queryAllNodes (count : Nat)
  | nodeLine (i : Nat) (data : Props)
  deriving DecidableEq, Repr

/-- The value a panic carries. -/
inductive Panic where
  | error (e : Err)
  | resultsLen (got expected : Nat)
  | indexOutOfRange (index len : Nat)
  deriving DecidableEq, Repr

/-- The process as the driver sees it: the connection `db` and what was written
to standard output so far. -/
structure World (σ : Type) where
  db : σ
  out : List Printed

/-- How a piece of the driver ends: it returns, or it panics (nothing in the
program recovers, so a panic ends the process). -/
inductive Outcome (σ : Type) where
  | done (w : World σ)
  | panicked (p : Panic) (w : World σ)

/-- A step of the driver: a function with no arguments and no results that acts
on the process. -/
abbrev Step (σ : Type) := World σ → Outcome σ

/-- Sequencing of Go statements: the next statement runs only when the previous
one returned. -/
def Outcome.andThen {σ : Type} (o : Outcome σ) (f : Step σ) : Outcome σ :=
  match o with
  | Outcome.done w => f w
  | Outcome.panicked p w => Outcome.panicked p w

/-- The world an outcome ends in. -/
def Outcome.world {σ : Type} : Outcome σ → World σ
  | Outcome.done w => w
  | Outcome.panicked _ w => w

/-- Whether an outcome is a panic. -/
def Outcome.isPanic {σ : Type} : Outcome σ → Bool
  | Outcome.done _ => false
  | Outcome.panicked _ _ => true

/-- The helper `panicErr(err)`: panics with `err` when it is not nil. -/
def panicErr {σ : Type} (err : Option Err) (w : World σ) : Outcome σ :=
  match err with
  | some e => Outcome.panicked (Panic.error e) w
  | none => Outcome.done w

/-- The error half of a call result, as the Go variable `err`. -/
def errOf {α : Type} : Except Err α → Option Err
  | Except.error e => some e
  | Except.ok _ => none

/-- The slice `res` after `db.Cypher(&cq)`: it starts empty and is filled only by
a call that returns its rows. -/
def resOf : Except Err (List Row) → List Row
  | Except.error _ => []
  | Except.ok rows => rows

/-- Appends one line to standard output. -/
def World.print {σ : Type} (w : World σ) (p : Printed) : World σ :=
  { w with out := w.out ++ [p] }

/-- The lines `Node[i] data` printed by the loops of `queryMovies` and
`queryAllNodes`, for the rows from index `i` on. -/
def nodeLines : Nat → List Row → List Printed
  | _, [] => []
  | i, r :: rest => Printed.nodeLine i (r.node 0).Data :: nodeLines (i + 1) rest

/-! ## The statements and queries of the steps -/

/-- Statement of `queryNode` (a brace is written as a character escape). -/
def queryNodeStmt : String :=
  "\n\t\tMATCH (actor:Actor)\n\t\tWHERE actor.name = \x7bactorSub\x7d\n\t\tRETURN actor\n\t"

/-- Statement of `createMovie`. -/
def createMovieStmt : String :=
  "\n\t\tMATCH (actor:Actor)\n\t\tWHERE actor.name = \x7bactorSub\x7d\n\t\tCREATE (movie:Movie \x7btitle: \x7bmovieSub\x7d\x7d)\n\t\tCREATE (actor)-[:ACTED_IN]->(movie);\n\t"

/-- Statement of `createUnique`. -/
def createUniqueStmt : String :=
  "\n\t\tMATCH (actor:Actor \x7bname: \x7bactorSub\x7d\x7d)\n\t\tCREATE UNIQUE (actor)-[r:ACTED_IN]->(movie:Movie \x7btitle: \x7bmovieSub\x7d\x7d)\n\t\tRETURN r;\n\t"

/-- Statement of `setNodeProperty`. -/
def setNodePropertyStmt : String :=
  "\n\t\tMATCH (actor:Actor \x7bname: \x7bactorSub\x7d\x7d)\n\t\tSET actor.DoB = \x7bdobSub\x7d\n\t\tRETURN actor.name, actor.DoB;\n\t"

/-- Statement of `queryMovies`. -/
def queryMoviesStmt : String :=
  "\n\t\tMATCH (movie:Movie)\n\t\tRETURN movie;\n\t"

/-- Statement of `queryAllNodes`. -/
def queryAllNodesStmt : String :=
  "MATCH (n) RETURN n"

/-- The query `cq` built by `queryNode`. -/
def queryNodeQuery : CypherQuery :=
  { Statement := queryNodeStmt
    Parameters := [("actorSub", Scalar.str "Tom Hanks")]
    Result := some [⟨"Actor", none, GoType.node⟩] }

/-- The query `cq` built by `createMovie`. -/
def createMovieQuery : CypherQuery :=
  { Statement := createMovieStmt
    Parameters := [("actorSub", Scalar.str "Tom Hanks"),
                   ("movieSub", Scalar.str "Sleepless in Seattle")]
    Result := none }

/-- The query `cq` built by `createUnique`. -/
def createUniqueQuery : CypherQuery :=
  { Statement := createUniqueStmt
    Parameters := [("actorSub", Scalar.str "Tom Hanks"),
                   ("movieSub", Scalar.str "Forrest Gump")]
    Result := some [⟨"A", some "a.name", GoType.string⟩,
                    ⟨"Rel", some "type(r)", GoType.string⟩,
                    ⟨"B", some "b.name", GoType.string⟩] }

/-- The query `cq` built by `setNodeProperty`. -/
def setNodePropertyQuery : CypherQuery :=
  { Statement := setNodePropertyStmt
    Parameters := [("actorSub", Scalar.str "Tom Hanks"), ("dobSub", Scalar.int 1944)]
    Result := some [⟨"Name", some "actor.name", GoType.string⟩,
                    ⟨"DoB", some "actor.DoB", GoType.string⟩] }

/-- The query `cq` built by `queryMovies`. -/
def queryMoviesQuery : CypherQuery :=
  { Statement := queryMoviesStmt
    Parameters := [("actorSub", Scalar.str "Tom Hanks")]
    Result := some [⟨"Movie", none, GoType.node⟩] }

/-- The query `cq` built by `queryAllNodes`. -/
def queryAllNodesQuery : CypherQuery :=
  { Statement := queryAllNodesStmt
    Parameters := []
    Result := some [⟨"N", none, GoType.node⟩] }

/-! ## The steps -/

/-- The step `createNode`: creates the node, panics when that call fails, adds the
label (the value `AddLabel` returns is not looked at), prints the node data. -/
def createNode {σ : Type} (c : Client σ) : Step σ := fun w =>
  match c.CreateNode [("name", Scalar.str "Tom Hanks")] w.db with
  | (s1, Except.error e) => Outcome.panicked (Panic.error e) { w with db := s1 }
  | (s1, Except.ok n) =>
    let s2 := (c.AddLabel n "Actor" s1).1
    Outcome.done (World.print { w with db := s2 } (Printed.createNode n.Data))

/-- The step `queryNode`. -/
def queryNode {σ : Type} (c : Client σ) : Step σ := fun w =>
  let call := c.Cypher queryNodeQuery w.db
  let res := resOf call.2
  (panicErr (errOf call.2) { w with db := call.1 }).andThen fun w1 =>
    if res.length ≠ 1 then
      Outcome.panicked (Panic.resultsLen res.length 1) w1
    else
      let n := (res.headD []).node 0
      Outcome.done (w1.print (Printed.queryNode n.Data))

/-- The step `createMovie`. -/
def createMovie {σ : Type} (c : Client σ) : Step σ := fun w =>
  let call := c.Cypher createMovieQuery w.db
  (panicErr (errOf call.2) { w with db := call.1 }).andThen fun w1 =>
    Outcome.done (w1.print Printed.createMovie)

/-- The step `createUnique`: `res[0]` is read without a length check. -/
def createUnique {σ : Type} (c : Client σ) : Step σ := fun w =>
  let call := c.Cypher createUniqueQuery w.db
  let res := resOf call.2
  (panicErr (errOf call.2) { w with db := call.1 }).andThen fun w1 =>
    match res with
    | [] => Outcome.panicked (Panic.indexOutOfRange 0 0) w1
    | r :: _ => Outcome.done (w1.print (Printed.createUnique (r.str 0) (r.str 1) (r.str 2)))

/-- The step `setNodeProperty`: `res[0]` is read without a length check. -/
def setNodeProperty {σ : Type} (c : Client σ) : Step σ := fun w =>
  let call := c.Cypher setNodePropertyQuery w.db
  let res := resOf call.2
  (panicErr (errOf call.2) { w with db := call.1 }).andThen fun w1 =>
    match res with
    | [] => Outcome.panicked (Panic.indexOutOfRange 0 0) w1
    | r :: _ => Outcome.done (w1.print (Printed.setNodeProperty (r.str 0) (r.str 1)))

/-- The step `queryMovies`. -/
def queryMovies {σ : Type} (c : Client σ) : Step σ := fun w =>
  let call := c.Cypher queryMoviesQuery w.db
  let res := resOf call.2
  (panicErr (errOf call.2) { w with db := call.1 }).andThen fun w1 =>
    if res.length ≠ 2 then
      Outcome.panicked (Panic.resultsLen res.length 2) w1
    else
      Outcome.done { w1 with out := w1.out ++ Printed.queryMovies :: nodeLines 0 res }

/-- The step `queryAllNodes`. -/
def queryAllNodes {σ : Type} (c : Client σ) : Step σ := fun w =>
  let call := c.Cypher queryAllNodesQuery w.db
  let res := resOf call.2
  (panicErr (errOf call.2) { w with db := call.1 }).andThen fun w1 =>
    Outcome.done { w1 with out := w1.out ++ Printed.queryAllNodes res.length :: nodeLines 0 res }

/-- The function `main`: the seven steps, one after the other. -/
def main {σ : Type} (c : Client σ) : Step σ := fun w =>
  ((((((createNode c w).andThen
    (queryNode c)).andThen
    (createMovie c)).andThen
    (createUnique c)).andThen
    (setNodeProperty c)).andThen
    (queryMovies c)).andThen
    (queryAllNodes c)

/-! ## A concrete client: the graph database behind the connection -/

/-- A node of the graph: identity, labels, property map. -/
structure GNode where
  id : Nat
  labels : List String
  props : Props
  deriving DecidableEq, Repr

/-- A relationship of the graph: identity, start node, type tag, end node. -/
structure GRel where
  id : Nat
  start : Nat
  type : String
  stop : Nat
  deriving DecidableEq, Repr

/-- The stored graph.  Nothing is ever deleted, so a new node or relationship takes
the current count as its identity. -/
structure Graph where
  nodes : List GNode
  rels : List GRel
  deriving DecidableEq, Repr

/-- The freshly reset database. -/
def Graph.empty : Graph := ⟨[], []⟩

/-- The connection state: the graph, and for each coming call whether it is going
to fail (`some e`) before reaching the graph.  With `faults = []` every call
reaches the database. -/
structure Neo4j where
  graph : Graph
  faults : List (Option Err)
  deriving DecidableEq, Repr

/-- Takes the fault, if any, that hits the next call. -/
def Neo4j.nextFault (s : Neo4j) : Option Err × Neo4j :=
  match s.faults with
  | [] => (none, s)
  | f :: rest => (f, { s with faults := rest })

/-- Adds a node and returns it. -/
def Graph.addNode (g : Graph) (labels : List String) (props : Props) : Graph × GNode :=
  let n : GNode := ⟨g.nodes.length, labels, props⟩
  ({ g with nodes := g.nodes ++ [n] }, n)

/-- Adds a relationship and returns it. -/
def Graph.addRel (g : Graph) (start : Nat) (type : String) (stop : Nat) : Graph × GRel :=
  let r : GRel := ⟨g.rels.length, start, type, stop⟩
  ({ g with rels := g.rels ++ [r] }, r)

/-- The node with a given identity. -/
def Graph.node? (g : Graph) (id : Nat) : Option GNode :=
  g.nodes.find? fun n => n.id == id

/-- Whether a node carries `label` and has property `key` equal to `v`: the pattern
`(x:label {key: v})`, also written `(x:label) WHERE x.key = v`. -/
def GNode.hasLabelProp (n : GNode) (label key : String) (v : Scalar) : Bool :=
  decide (label ∈ n.labels) && decide (n.props.lookup key = some v)

/-- Sets one property of a property map, replacing an earlier value. -/
def setProp (ps : Props) (key : String) (v : Scalar) : Props :=
  if (ps.lookup key).isSome then
    ps.map fun kv => if kv.1 = key then (key, v) else kv
  else
    ps ++ [(key, v)]

/-- One cell of a response row, as the database sends it. -/
inductive Cell where
  | null
  | str (s : String)
  | num (n : Int)
  | node (n : GNode)
  | rel (r : GRel)
  deriving DecidableEq, Repr

/-- The cell for a property value (`null` when the property is absent). -/
def Cell.ofProp : Option Scalar → Cell
  | none => Cell.null
  | some (Scalar.str s) => Cell.str s
  | some (Scalar.int n) => Cell.num n

/-- The response to a statement: the names of the columns its `RETURN` clause
produces and one list of cells per row. -/
structure Response where
  columns : List String
  data : List (List Cell)
  deriving DecidableEq, Repr

/-- The nodes that carry a label: the pattern `(x:label)`. -/
def Graph.labelled (g : Graph) (label : String) : List GNode :=
  g.nodes.filter fun n => decide (label ∈ n.labels)

/-- The actors matched by `(actor:Actor)` with `actor.name = name`. -/
def Graph.actorsNamed (g : Graph) (name : Scalar) : List GNode :=
  g.nodes.filter fun n => n.hasLabelProp "Actor" "name" name

/-- Meaning of `queryNodeStmt`:
`MATCH (actor:Actor) WHERE actor.name = {actorSub} RETURN actor`. -/
def runQueryNode (g : Graph) (actorSub : Scalar) : Graph × Response :=
  (g, ⟨["actor"], (g.actorsNamed actorSub).map fun n => [Cell.node n]⟩)

/-- Meaning of `createMovieStmt`:
`MATCH (actor:Actor) WHERE actor.name = {actorSub}
 CREATE (movie:Movie {title: {movieSub}}) CREATE (actor)-[:ACTED_IN]->(movie)`:
for every matched actor a new movie node and a new relationship to it. -/
def runCreateMovie (g : Graph) (actorSub movieSub : Scalar) : Graph × Response :=
  let g1 := (g.actorsNamed actorSub).foldl
    (fun acc a =>
      let (acc1, m) := acc.addNode ["Movie"] [("title", movieSub)]
      (acc1.addRel a.id "ACTED_IN" m.id).1)
    g
  (g1, ⟨[], []⟩)

/-- The relationships that already realise the path
`(actor)-[r:ACTED_IN]->(movie:Movie {title: title})` from a given actor. -/
def Graph.actedIn (g : Graph) (actor : Nat) (title : Scalar) : List GRel :=
  g.rels.filter fun r =>
    r.start == actor && r.type == "ACTED_IN" &&
      match g.node? r.stop with
      | some m => m.hasLabelProp "Movie" "title" title
      | none => false

/-- The clause `CREATE UNIQUE (actor)-[r:ACTED_IN]->(movie:Movie {title: {movieSub}})`
for one matched actor: the existing relationship when there is exactly one, a new
movie node and relationship when there is none, an error when the path is not
unique. -/
def createUniqueFor (g : Graph) (actor : Nat) (movieSub : Scalar) : Except Err (Graph × GRel) :=
  match g.actedIn actor movieSub with
  | [] =>
    let (g1, m) := g.addNode ["Movie"] [("title", movieSub)]
    Except.ok (g1.addRel actor "ACTED_IN" m.id)
  | [r] => Except.ok (g, r)
  | _ => Except.error "UniquePathNotUniqueException"

/-- The clause of `createUniqueFor` over all matched actors, collecting `r`. -/
def createUniqueAll : List GNode → Graph → Scalar → Except Err (Graph × List GRel)
  | [], g, _ => Except.ok (g, [])
  | a :: rest, g, movieSub =>
    match createUniqueFor g a.id movieSub with
    | Except.error e => Except.error e
    | Except.ok (g1, r) =>
      match createUniqueAll rest g1 movieSub with
      | Except.error e => Except.error e
      | Except.ok (g2, rs) => Except.ok (g2, r :: rs)

/-- Meaning of `createUniqueStmt`:
`MATCH (actor:Actor {name: {actorSub}})
 CREATE UNIQUE (actor)-[r:ACTED_IN]->(movie:Movie {title: {movieSub}}) RETURN r`.
The only column is `r`. -/
def runCreateUnique (g : Graph) (actorSub movieSub : Scalar) : Except Err (Graph × Response) :=
  match createUniqueAll (g.actorsNamed actorSub) g movieSub with
  | Except.error e => Except.error e
  | Except.ok (g1, rs) => Except.ok (g1, ⟨["r"], rs.map fun r => [Cell.rel r]⟩)

/-- Meaning of `setNodePropertyStmt`:
`MATCH (actor:Actor {name: {actorSub}}) SET actor.DoB = {dobSub}
 RETURN actor.name, actor.DoB`. -/
def runSetNodeProperty (g : Graph) (actorSub dobSub : Scalar) : Graph × Response :=
  let nodes1 := g.nodes.map fun n =>
    if n.hasLabelProp "Actor" "name" actorSub then
      { n with props := setProp n.props "DoB" dobSub }
    else n
  let g1 : Graph := { g with nodes := nodes1 }
  (g1, ⟨["actor.name", "actor.DoB"],
    (g1.actorsNamed actorSub).map fun n =>
      [Cell.ofProp (n.props.lookup "name"), Cell.ofProp (n.props.lookup "DoB")]⟩)

/-- Meaning of `queryMoviesStmt`: `MATCH (movie:Movie) RETURN movie`. -/
def runQueryMovies (g : Graph) : Graph × Response :=
  (g, ⟨["movie"], (g.labelled "Movie").map fun n => [Cell.node n]⟩)

/-- Meaning of `queryAllNodesStmt`: `MATCH (n) RETURN n`. -/
def runQueryAllNodes (g : Graph) : Graph × Response :=
  (g, ⟨["n"], g.nodes.map fun n => [Cell.node n]⟩)

/-- Looks a parameter up; a statement that names a parameter the request does not
carry is refused. -/
def param (ps : Props) (name : String) : Except Err Scalar :=
  match ps.lookup name with
  | some v => Except.ok v
  | none => Except.error "ParameterNotFoundException"

/-- The database executing a statement with its parameters.  The six statements of
the driver have the meanings above; any other text is refused. -/
def execute (stmt : String) (ps : Props) (g : Graph) : Except Err (Graph × Response) :=
  if stmt = queryNodeStmt then
    (param ps "actorSub").map fun a => runQueryNode g a
  else if stmt = createMovieStmt then
    (param ps "actorSub").bind fun a => (param ps "movieSub").map fun m => runCreateMovie g a m
  else if stmt = createUniqueStmt then
    (param ps "actorSub").bind fun a => (param ps "movieSub").bind fun m => runCreateUnique g a m
  else if stmt = setNodePropertyStmt then
    (param ps "actorSub").bind fun a => (param ps "dobSub").map fun d => runSetNodeProperty g a d
  else if stmt = queryMoviesStmt then
    Except.ok (runQueryMovies g)
  else if stmt = queryAllNodesStmt then
    Except.ok (runQueryAllNodes g)
  else
    Except.error "SyntaxException"

/-! ### Decoding response rows into the result record -/

/-- Lower-cases an ASCII letter. -/
def lowerChar (c : Char) : Char :=
  if 65 ≤ c.toNat ∧ c.toNat ≤ 90 then Char.ofNat (c.toNat + 32) else c

/-- Whether a column name is the key of a field: equal, or equal up to the case of
letters. -/
def keyMatches (key col : String) : Bool :=
  key.toList.map lowerChar == col.toList.map lowerChar

/-- The key under which a field is looked for: its `json` tag, or else its name. -/
def FieldDecl.key (f : FieldDecl) : String := f.tag.getD f.name

/-- The cell of a row that belongs to a field, if some column matches its key. -/
def cellFor (key : String) : List String → List Cell → Option Cell
  | col :: cols, cell :: cells => if keyMatches key col then some cell else cellFor key cols cells
  | _, _ => none

/-- Stores one cell into a field of the given Go type.  The result is the field
value and whether the cell had the wrong type for the field (the field then keeps
its zero value). -/
def decodeField : GoType → Option Cell → Field × Bool
  | GoType.string, some (Cell.str s) => (Field.str s, false)
  | GoType.string, none => (Field.str "", false)
  | GoType.string, some Cell.null => (Field.str "", false)
  | GoType.string, some _ => (Field.str "", true)
  | GoType.node, some (Cell.node n) => (Field.node ⟨n.id, n.props⟩, false)
  | GoType.node, some (Cell.rel r) => (Field.node ⟨r.id, []⟩, false)
  | GoType.node, none => (Field.node ⟨0, []⟩, false)
  | GoType.node, some Cell.null => (Field.node ⟨0, []⟩, false)
  | GoType.node, some _ => (Field.node ⟨0, []⟩, true)

/-- Decodes one response row into a record. -/
def decodeRow (t : RecordType) (columns : List String) (cells : List Cell) : Row × Bool :=
  let fs := t.map fun f => decodeField f.type (cellFor f.key columns cells)
  (fs.map Prod.fst, fs.any Prod.snd)

/-- Decodes a response into the slice `res`: one record per row, and whether some
cell had the wrong type. -/
def decode (t : RecordType) (resp : Response) : List Row × Bool :=
  let rs := resp.data.map fun cells => decodeRow t resp.columns cells
  (rs.map Prod.fst, rs.any Prod.snd)

/-- The call `db.CreateNode(props)` on the concrete client. -/
def Neo4j.CreateNode (props : Props) (s : Neo4j) : Neo4j × Except Err Node :=
  match s.nextFault with
  | (some e, s1) => (s1, Except.error e)
  | (none, s1) =>
    let (g1, n) := s1.graph.addNode [] props
    ({ s1 with graph := g1 }, Except.ok ⟨n.id, n.props⟩)

/-- The call `n.AddLabel(label)` on the concrete client. -/
def Neo4j.AddLabel (n : Node) (label : String) (s : Neo4j) : Neo4j × Except Err Unit :=
  match s.nextFault with
  | (some e, s1) => (s1, Except.error e)
  | (none, s1) =>
    match s1.graph.node? n.Id with
    | none => (s1, Except.error "NotFound")
    | some _ =>
      let nodes1 := s1.graph.nodes.map fun m =>
        if m.id = n.Id then { m with labels := m.labels ++ [label] } else m
      ({ s1 with graph := { s1.graph with nodes := nodes1 } }, Except.ok ())

/-- The call `db.Cypher(&cq)` on the concrete client.  `strict` says whether the
client reports a row that does not fit the result record as the error of the call;
when it does not, the call succeeds with the fields it could not store left at
their zero value. -/
def Neo4j.Cypher (strict : Bool) (q : CypherQuery) (s : Neo4j) : Neo4j × Except Err (List Row) :=
  match s.nextFault with
  | (some e, s1) => (s1, Except.error e)
  | (none, s1) =>
    match execute q.Statement q.Parameters s1.graph with
    | Except.error e => (s1, Except.error e)
    | Except.ok (g1, resp) =>
      let s2 : Neo4j := { s1 with graph := g1 }
      match q.Result with
      | none => (s2, Except.ok [])
      | some t =>
        let (rows, bad) := decode t resp
        if strict && bad then (s2, Except.error "UnmarshalTypeError") else (s2, Except.ok rows)

/-- The concrete client. -/
def Neo4j.client (strict : Bool) : Client Neo4j :=
  { CreateNode := Neo4j.CreateNode
    AddLabel := Neo4j.AddLabel
    Cypher := Neo4j.Cypher strict }

/-- The process at start-up on a freshly reset database on which every call
reaches the database. -/
def freshWorld : World Neo4j := ⟨⟨Graph.empty, []⟩, []⟩


/-! ## Running steps one after the other -/

/-- The seven steps of `main`, in the order the source calls them. -/
def steps {σ : Type} (c : Client σ) : List (Step σ) :=
  [createNode c, queryNode c, createMovie c, createUnique c, setNodeProperty c,
   queryMovies c, queryAllNodes c]

/-- Runs a list of steps as consecutive statements. -/
def runAll {σ : Type} : List (Step σ) → Step σ
  | [], w => Outcome.done w
  | f :: fs, w => (f w).andThen (runAll fs)

/-- `Chain fs w w'`: started in `w`, the steps `fs` ran one after the other, each
of them returned, and the last one left the process in `w'`. -/
def Chain {σ : Type} : List (Step σ) → World σ → World σ → Prop
  | [], w, w' => w' = w
  | f :: fs, w, w' => ∃ w1, f w = Outcome.done w1 ∧ Chain fs w1 w'

/-- The panic an outcome ended with, if it did. -/
def Outcome.panic? {σ : Type} : Outcome σ → Option Panic
  | Outcome.done _ => none
  | Outcome.panicked p _ => some p

/-- The process after the first `k` steps of `main` on the freshly reset
database. -/
def worldAfter (strict : Bool) (k : Nat) : World Neo4j :=
  (runAll ((steps (Neo4j.client strict)).take k) freshWorld).world

/-- The graph a step or a run leaves behind. -/
def Outcome.graph (o : Outcome Neo4j) : Graph := o.world.db.graph

/-- The nodes whose `title` property is a given string. -/
def Graph.titled (g : Graph) (title : String) : List GNode :=
  g.nodes.filter fun n => decide (n.props.lookup "title" = some (Scalar.str title))

/-- The relationships that end in a given node. -/
def Graph.into (g : Graph) (node : Nat) : List GRel :=
  g.rels.filter fun r => r.stop == node

/-! ### Reading a statement's text -/

/-- The text that follows the first occurrence of a keyword. -/
def afterKeyword (kw : List Char) : List Char → Option (List Char)
  | [] => none
  | c :: cs =>
    if kw.isPrefixOf (c :: cs) then some ((c :: cs).drop kw.length) else afterKeyword kw cs

/-- White space and the closing semicolon. -/
def isPadding (c : Char) : Bool :=
  c.toNat == 32 || c.toNat == 10 || c.toNat == 9 || c.toNat == 59

/-- Splits at commas. -/
def splitCommas : List Char → List Char → List (List Char)
  | acc, [] => [acc.reverse]
  | acc, c :: cs =>
    if c.toNat == 44 then acc.reverse :: splitCommas [] cs else splitCommas (c :: acc) cs

/-- Removes padding at both ends. -/
def trimPadding (cs : List Char) : List Char :=
  ((cs.dropWhile isPadding).reverse.dropWhile isPadding).reverse

/-- The column names a statement returns: the items of its `RETURN` clause, as
written.  A statement without `RETURN` has no columns. -/
def returnColumns (stmt : String) : List String :=
  match afterKeyword "RETURN".toList stmt.toList with
  | none => []
  | some rest => (splitCommas [] rest).map fun cs => String.mk (trimPadding cs)

/-- A character of a parameter name. -/
def isNameChar (c : Char) : Bool :=
  c.isAlphanum || c.toNat == 95

/-- Reads a parameter name up to the closing brace (code 125); `none` when what
follows the opening brace is not of the form `name}`. -/
def readName : List Char → List Char → Option (List Char)
  | _, [] => none
  | acc, c :: cs =>
    if c.toNat == 125 then (if acc.isEmpty then none else some acc.reverse)
    else if isNameChar c then readName (c :: acc) cs
    else none

/-- The parameter placeholders `{name}` of a character sequence (an opening brace
has code 123). -/
def placeholdersAux : List Char → List String
  | [] => []
  | c :: cs =>
    if c.toNat == 123 then
      match readName [] cs with
      | some name => String.mk name :: placeholdersAux cs
      | none => placeholdersAux cs
    else placeholdersAux cs

/-- The parameter placeholders `{name}` that occur in a statement. -/
def placeholders (stmt : String) : List String := placeholdersAux stmt.toList

/-- The keys of the `Parameters` mapping of a query. -/
def CypherQuery.keys (q : CypherQuery) : List String := q.Parameters.map Prod.fst

/-- The queries of the six query steps. -/
def queries : List CypherQuery :=
  [queryNodeQuery, createMovieQuery, createUniqueQuery, setNodePropertyQuery,
   queryMoviesQuery, queryAllNodesQuery]

/-- The process on a freshly reset database whose second call is going to fail. -/
def secondCallFails : World Neo4j := ⟨⟨Graph.empty, [none, some "connection refused"]⟩, []⟩

/-! ## Lemmas on sequencing -/

theorem main_eq_runAll {σ : Type} (c : Client σ) (w : World σ) :
    main c w = runAll (steps c) w := by
  cases h1 : createNode c w with
  | panicked p w1 => simp [main, steps, runAll, h1, Outcome.andThen]
  | done w1 =>
    cases h2 : queryNode c w1 with
    | panicked p w2 => simp [main, steps, runAll, h1, h2, Outcome.andThen]
    | done w2 =>
      cases h3 : createMovie c w2 with
      | panicked p w3 => simp [main, steps, runAll, h1, h2, h3, Outcome.andThen]
      | done w3 =>
        cases h4 : createUnique c w3 with
        | panicked p w4 => simp [main, steps, runAll, h1, h2, h3, h4, Outcome.andThen]
        | done w4 =>
          cases h5 : setNodeProperty c w4 with
          | panicked p w5 => simp [main, steps, runAll, h1, h2, h3, h4, h5, Outcome.andThen]
          | done w5 =>
            cases h6 : queryMovies c w5 with
            | panicked p w6 =>
              simp [main, steps, runAll, h1, h2, h3, h4, h5, h6, Outcome.andThen]
            | done w6 =>
              cases h7 : queryAllNodes c w6 <;>
                simp [main, steps, runAll, h1, h2, h3, h4, h5, h6, h7, Outcome.andThen]

theorem runAll_done_iff {σ : Type} (fs : List (Step σ)) (w w' : World σ) :
    runAll fs w = Outcome.done w' ↔ Chain fs w w' := by
  induction fs generalizing w with
  | nil =>
    simp only [runAll, Chain, Outcome.done.injEq]
    exact eq_comm
  | cons f fs ih =>
    cases h : f w with
    | done w1 => simp [runAll, Chain, h, Outcome.andThen, ih]
    | panicked p w1 => simp [runAll, Chain, h, Outcome.andThen]

theorem runAll_panicked_iff {σ : Type} (fs : List (Step σ)) (w : World σ) (p : Panic)
    (w2 : World σ) :
    runAll fs w = Outcome.panicked p w2 ↔
      ∃ k w1 f, fs.get? k = some f ∧ Chain (fs.take k) w w1 ∧ f w1 = Outcome.panicked p w2 := by
  induction fs generalizing w with
  | nil => simp [runAll]
  | cons f fs ih =>
    cases h : f w with
    | done w1 =>
      simp only [runAll, h, Outcome.andThen, ih]
      constructor
      · rintro ⟨k, w3, g, hg, hc, hp⟩
        exact ⟨k + 1, w3, g, by simpa using hg, ⟨w1, h, hc⟩, hp⟩
      · rintro ⟨k, w3, g, hg, hc, hp⟩
        cases k with
        | zero =>
          simp only [List.get?_cons_zero, Option.some.injEq] at hg
          simp only [List.take_zero, Chain] at hc
          subst hg hc
          rw [h] at hp
          cases hp
        | succ k =>
          simp only [List.get?_cons_succ] at hg
          simp only [List.take_succ_cons, Chain] at hc
          obtain ⟨w4, h4, hc⟩ := hc
          rw [h] at h4
          cases h4
          exact ⟨k, w3, g, hg, hc, hp⟩
    | panicked q w1 =>
      simp only [runAll, h, Outcome.andThen]
      constructor
      · intro hq
        refine ⟨0, w, f, by simp, rfl, ?_⟩
        rw [h]
        exact hq
      · rintro ⟨k, w3, g, hg, hc, hp⟩
        cases k with
        | zero =>
          simp only [List.get?_cons_zero, Option.some.injEq] at hg
          simp only [List.take_zero, Chain] at hc
          subst hg hc
          rw [h] at hp
          exact hp
        | succ k =>
          simp only [List.take_succ_cons, Chain] at hc
          obtain ⟨w4, h4, _⟩ := hc
          rw [h] at h4
          cases h4

/-! ## Lemmas on the concrete client -/

theorem decode_nodes (name col : String) (h : keyMatches name col = true) (ns : List GNode) :
    decode [⟨name, none, GoType.node⟩] ⟨[col], ns.map fun n => [Cell.node n]⟩ =
      (ns.map fun n => [Field.node ⟨n.id, n.props⟩], false) := by
  induction ns with
  | nil => rfl
  | cons n ns ih =>
    simp only [decode, List.map_cons, List.any_cons, Prod.mk.injEq] at ih ⊢
    rw [ih.1, ih.2]
    simp [decodeRow, cellFor, FieldDecl.key, h, decodeField]

theorem Cypher_queryNode (strict : Bool) (g : Graph) :
    Neo4j.Cypher strict queryNodeQuery ⟨g, []⟩ =
      (⟨g, []⟩, Except.ok
        ((g.actorsNamed (Scalar.str "Tom Hanks")).map fun n => [Field.node ⟨n.id, n.props⟩])) := by
  have hk : keyMatches "Actor" "actor" = true := by decide
  simp [Neo4j.Cypher, Neo4j.nextFault, queryNodeQuery, execute, param, List.lookup,
    runQueryNode, Except.map, decode_nodes "Actor" "actor" hk]

theorem Cypher_queryMovies (strict : Bool) (g : Graph) :
    Neo4j.Cypher strict queryMoviesQuery ⟨g, []⟩ =
      (⟨g, []⟩, Except.ok
        ((g.labelled "Movie").map fun n => [Field.node ⟨n.id, n.props⟩])) := by
  have hk : keyMatches "Movie" "movie" = true := by decide
  have h1 : queryMoviesStmt ≠ queryNodeStmt := by decide
  have h2 : queryMoviesStmt ≠ createMovieStmt := by decide
  have h3 : queryMoviesStmt ≠ createUniqueStmt := by decide
  have h4 : queryMoviesStmt ≠ setNodePropertyStmt := by decide
  simp [Neo4j.Cypher, Neo4j.nextFault, queryMoviesQuery, execute, h1, h2, h3, h4,
    runQueryMovies, decode_nodes "Movie" "movie" hk]

theorem Cypher_createUnique_no_actor (strict : Bool) (g : Graph)
    (h : g.actorsNamed (Scalar.str "Tom Hanks") = []) :
    Neo4j.Cypher strict createUniqueQuery ⟨g, []⟩ = (⟨g, []⟩, Except.ok []) := by
  have h1 : createUniqueStmt ≠ queryNodeStmt := by decide
  have h2 : createUniqueStmt ≠ createMovieStmt := by decide
  simp [Neo4j.Cypher, Neo4j.nextFault, createUniqueQuery, execute, h1, h2, param, List.lookup,
    Except.bind, runCreateUnique, h, createUniqueAll, decode]

theorem Cypher_setNodeProperty_no_actor (strict : Bool) (g : Graph)
    (h : g.actorsNamed (Scalar.str "Tom Hanks") = []) :
    Neo4j.Cypher strict setNodePropertyQuery ⟨g, []⟩ = (⟨g, []⟩, Except.ok []) := by
  have h1 : setNodePropertyStmt ≠ queryNodeStmt := by decide
  have h2 : setNodePropertyStmt ≠ createMovieStmt := by decide
  have h3 : setNodePropertyStmt ≠ createUniqueStmt := by decide
  have hn : ∀ n ∈ g.nodes, n.hasLabelProp "Actor" "name" (Scalar.str "Tom Hanks") = false := by
    intro n hmem
    have := List.filter_eq_nil_iff.mp h n hmem
    simpa using this
  have hmap : (g.nodes.map fun n =>
      if n.hasLabelProp "Actor" "name" (Scalar.str "Tom Hanks") = true then
        { n with props := setProp n.props "DoB" (Scalar.int 1944) }
      else n) = g.nodes := by
    conv_rhs => rw [← List.map_id g.nodes]
    apply List.map_congr_left
    intro n hmem
    simp [hn n hmem]
  simp [Neo4j.Cypher, Neo4j.nextFault, setNodePropertyQuery, execute, h1, h2, h3, param,
    List.lookup, Except.bind, Except.map, runSetNodeProperty, hmap, h, decode]

/-! ## Theorems -/

/-- C1: `main` runs `createNode`, `queryNode`, `createMovie`, `createUnique`,
`setNodeProperty`, `queryMovies`, `queryAllNodes` in this order, each only after
the previous one returned.  For every client and every process state: `main`
returns exactly when the seven steps ran one after the other and each returned,
and `main` panics with `p` in world `w2` exactly when some step `k` panicked with
`p` in `w2` after the steps before it had each returned; the database and the
output are then those the failing step left, so no later step ran or changed the
database. -/
theorem main_runs_steps_in_order {σ : Type} (c : Client σ) (w : World σ) :
    (steps c).length = 7 ∧
    (∀ w', main c w = Outcome.done w' ↔ Chain (steps c) w w') ∧
    (∀ p w2, main c w = Outcome.panicked p w2 ↔
      ∃ k w1 f, (steps c).get? k = some f ∧ Chain ((steps c).take k) w w1 ∧
        f w1 = Outcome.panicked p w2) := by
  refine ⟨rfl, ?_, ?_⟩
  · intro w'
    rw [main_eq_runAll]
    exact runAll_done_iff _ _ _
  · intro p w2
    rw [main_eq_runAll]
    exact runAll_panicked_iff _ _ _ _

set_option maxRecDepth 100000 in
/-- C2: `queryNode` panics exactly when the query returns an error or the number
of rows differs from 1.  For every client and state: an error of the call is
re-raised as the panic; a successful result `res` with `len(res) != 1` panics with
the length message; a successful result of exactly one row makes the step return
after printing the data of that row's actor; nothing is printed by a run that
panics.  On the concrete database with no failing call the rows are the nodes
labelled `Actor` whose name is "Tom Hanks", so the step panics exactly when the
number of those nodes differs from 1. -/
theorem queryNode_fatal_iff {σ : Type} (c : Client σ) (w : World σ) :
    ((queryNode c w).isPanic = true ↔
      (∃ e, (c.Cypher queryNodeQuery w.db).2 = Except.error e) ∨
      ∃ res, (c.Cypher queryNodeQuery w.db).2 = Except.ok res ∧ res.length ≠ 1) ∧
    (∀ e, (c.Cypher queryNodeQuery w.db).2 = Except.error e →
      queryNode c w = Outcome.panicked (Panic.error e) ⟨(c.Cypher queryNodeQuery w.db).1, w.out⟩) ∧
    (∀ res, (c.Cypher queryNodeQuery w.db).2 = Except.ok res → res.length ≠ 1 →
      queryNode c w = Outcome.panicked (Panic.resultsLen res.length 1)
        ⟨(c.Cypher queryNodeQuery w.db).1, w.out⟩) ∧
    (∀ r, (c.Cypher queryNodeQuery w.db).2 = Except.ok [r] →
      queryNode c w = Outcome.done
        ⟨(c.Cypher queryNodeQuery w.db).1, w.out ++ [Printed.queryNode (r.node 0).Data]⟩) ∧
    (∀ (strict : Bool) (g : Graph) (out : List Printed),
      (queryNode (Neo4j.client strict) ⟨⟨g, []⟩, out⟩).isPanic = true ↔
        (g.actorsNamed (Scalar.str "Tom Hanks")).length ≠ 1) := by
  refine ⟨?_, ?_, ?_, ?_, ?_⟩
  rotate_right
  · intro strict g out
    by_cases hl : (g.actorsNamed (Scalar.str "Tom Hanks")).length = 1
    · simp [queryNode, Neo4j.client, Cypher_queryNode, errOf, resOf, panicErr, Outcome.andThen,
        Outcome.isPanic, hl]
    · simp [queryNode, Neo4j.client, Cypher_queryNode, errOf, resOf, panicErr, Outcome.andThen,
        Outcome.isPanic, hl]
  · cases h : (c.Cypher queryNodeQuery w.db).2 with
    | error e => simp [queryNode, h, errOf, panicErr, Outcome.andThen, Outcome.isPanic]
    | ok res =>
      by_cases hl : res.length = 1
      · simp [queryNode, h, errOf, resOf, panicErr, Outcome.andThen, Outcome.isPanic, hl]
      · simp [queryNode, h, errOf, resOf, panicErr, Outcome.andThen, Outcome.isPanic, hl]
  · intro e h
    simp [queryNode, h, errOf, panicErr, Outcome.andThen]
  · intro res h hl
    simp [queryNode, h, errOf, resOf, panicErr, Outcome.andThen, hl]
  · intro r h
    simp [queryNode, h, errOf, resOf, panicErr, Outcome.andThen, World.print]

set_option maxRecDepth 100000 in
/-- C3: `queryMovies` panics exactly when the query returns an error or the number
of rows differs from 2.  For every client and state: an error of the call is
re-raised; a successful result with `len(res) != 2` panics with the length
message; a successful result of two rows makes the step return after printing the
header and exactly the two movies' property maps.  On the concrete database with
no failing call the rows are the nodes labelled `Movie`, so the step panics
exactly when their number differs from 2; a
third movie created before the step (a second `createMovie` after the first four
steps of `main`) makes the step panic with three rows where two are expected. -/
theorem queryMovies_fatal_iff {σ : Type} (c : Client σ) (w : World σ) :
    ((queryMovies c w).isPanic = true ↔
      (∃ e, (c.Cypher queryMoviesQuery w.db).2 = Except.error e) ∨
      ∃ res, (c.Cypher queryMoviesQuery w.db).2 = Except.ok res ∧ res.length ≠ 2) ∧
    (∀ e, (c.Cypher queryMoviesQuery w.db).2 = Except.error e →
      queryMovies c w =
        Outcome.panicked (Panic.error e) ⟨(c.Cypher queryMoviesQuery w.db).1, w.out⟩) ∧
    (∀ res, (c.Cypher queryMoviesQuery w.db).2 = Except.ok res → res.length ≠ 2 →
      queryMovies c w = Outcome.panicked (Panic.resultsLen res.length 2)
        ⟨(c.Cypher queryMoviesQuery w.db).1, w.out⟩) ∧
    (∀ r0 r1, (c.Cypher queryMoviesQuery w.db).2 = Except.ok [r0, r1] →
      queryMovies c w = Outcome.done
        ⟨(c.Cypher queryMoviesQuery w.db).1,
          w.out ++ [Printed.queryMovies, Printed.nodeLine 0 (r0.node 0).Data,
            Printed.nodeLine 1 (r1.node 0).Data]⟩) ∧
    (∀ (strict : Bool) (g : Graph) (out : List Printed),
      (queryMovies (Neo4j.client strict) ⟨⟨g, []⟩, out⟩).isPanic = true ↔
        (g.labelled "Movie").length ≠ 2) ∧
    (∀ strict : Bool,
      (queryMovies (Neo4j.client strict)
        (createMovie (Neo4j.client strict) (worldAfter strict 4)).world).panic? =
          some (Panic.resultsLen 3 2)) := by
  refine ⟨?_, ?_, ?_, ?_, ?_, fun strict => by cases strict <;> decide⟩
  rotate_right
  · intro strict g out
    by_cases hl : (g.labelled "Movie").length = 2
    · simp [queryMovies, Neo4j.client, Cypher_queryMovies, errOf, resOf, panicErr,
        Outcome.andThen, Outcome.isPanic, hl]
    · simp [queryMovies, Neo4j.client, Cypher_queryMovies, errOf, resOf, panicErr,
        Outcome.andThen, Outcome.isPanic, hl]
  · cases h : (c.Cypher queryMoviesQuery w.db).2 with
    | error e => simp [queryMovies, h, errOf, panicErr, Outcome.andThen, Outcome.isPanic]
    | ok res =>
      by_cases hl : res.length = 2
      · simp [queryMovies, h, errOf, resOf, panicErr, Outcome.andThen, Outcome.isPanic, hl]
      · simp [queryMovies, h, errOf, resOf, panicErr, Outcome.andThen, Outcome.isPanic, hl]
  · intro e h
    simp [queryMovies, h, errOf, panicErr, Outcome.andThen]
  · intro res h hl
    simp [queryMovies, h, errOf, resOf, panicErr, Outcome.andThen, hl]
  · intro r0 r1 h
    simp [queryMovies, h, errOf, resOf, panicErr, Outcome.andThen, nodeLines]

set_option maxRecDepth 100000 in
/-- C9: `createUnique` and `setNodeProperty` read `res[0]` with no length check.
For every client and state and every successful result `res` of the step's query:
the step panics exactly when `res` is empty, with index out of range; with one or
more rows it returns, printing the fields of the first row only, whatever the
number of further rows.  On the concrete database with no failing call, a graph
without an actor named "Tom Hanks" gives both queries zero rows, and both steps
panic with index out of range. -/
theorem res0_without_length_check {σ : Type} (c : Client σ) (w : World σ) :
    (∀ res, (c.Cypher createUniqueQuery w.db).2 = Except.ok res →
      ((createUnique c w).isPanic = true ↔ res = [])) ∧
    ((c.Cypher createUniqueQuery w.db).2 = Except.ok [] →
      createUnique c w = Outcome.panicked (Panic.indexOutOfRange 0 0)
        ⟨(c.Cypher createUniqueQuery w.db).1, w.out⟩) ∧
    (∀ r rest, (c.Cypher createUniqueQuery w.db).2 = Except.ok (r :: rest) →
      createUnique c w = Outcome.done
        ⟨(c.Cypher createUniqueQuery w.db).1,
          w.out ++ [Printed.createUnique (r.str 0) (r.str 1) (r.str 2)]⟩) ∧
    (∀ res, (c.Cypher setNodePropertyQuery w.db).2 = Except.ok res →
      ((setNodeProperty c w).isPanic = true ↔ res = [])) ∧
    ((c.Cypher setNodePropertyQuery w.db).2 = Except.ok [] →
      setNodeProperty c w = Outcome.panicked (Panic.indexOutOfRange 0 0)
        ⟨(c.Cypher setNodePropertyQuery w.db).1, w.out⟩) ∧
    (∀ r rest, (c.Cypher setNodePropertyQuery w.db).2 = Except.ok (r :: rest) →
      setNodeProperty c w = Outcome.done
        ⟨(c.Cypher setNodePropertyQuery w.db).1,
          w.out ++ [Printed.setNodeProperty (r.str 0) (r.str 1)]⟩) ∧
    (∀ (strict : Bool) (g : Graph) (out : List Printed),
      g.actorsNamed (Scalar.str "Tom Hanks") = [] →
      createUnique (Neo4j.client strict) ⟨⟨g, []⟩, out⟩ =
        Outcome.panicked (Panic.indexOutOfRange 0 0) ⟨⟨g, []⟩, out⟩ ∧
      setNodeProperty (Neo4j.client strict) ⟨⟨g, []⟩, out⟩ =
        Outcome.panicked (Panic.indexOutOfRange 0 0) ⟨⟨g, []⟩, out⟩) := by
  refine ⟨?_, ?_, ?_, ?_, ?_, ?_, ?_⟩
  rotate_right
  · intro strict g out h
    constructor
    · simp [createUnique, Neo4j.client, Cypher_createUnique_no_actor strict g h, errOf, resOf,
        panicErr, Outcome.andThen]
    · simp [setNodeProperty, Neo4j.client, Cypher_setNodeProperty_no_actor strict g h, errOf,
        resOf, panicErr, Outcome.andThen]
  · intro res h
    cases res <;>
      simp [createUnique, h, errOf, resOf, panicErr, Outcome.andThen, Outcome.isPanic]
  · intro h
    simp [createUnique, h, errOf, resOf, panicErr, Outcome.andThen]
  · intro r rest h
    simp [createUnique, h, errOf, resOf, panicErr, Outcome.andThen, World.print]
  · intro res h
    cases res <;>
      simp [setNodeProperty, h, errOf, resOf, panicErr, Outcome.andThen, Outcome.isPanic]
  · intro h
    simp [setNodeProperty, h, errOf, resOf, panicErr, Outcome.andThen]
  · intro r rest h
    simp [setNodeProperty, h, errOf, resOf, panicErr, Outcome.andThen, World.print]

/-- Witness of C2 on the concrete database: with no actor stored the query returns
no row and `queryNode` panics with the length message; after `createNode` it
returns one row and `queryNode` prints the actor's data. -/
theorem queryNode_fatal_iff_witness :
    ((Neo4j.client false).Cypher queryNodeQuery freshWorld.db).2 = Except.ok [] ∧
    ([] : List Row).length ≠ 1 ∧
    queryNode (Neo4j.client false) freshWorld =
      Outcome.panicked (Panic.resultsLen 0 1) freshWorld ∧
    ((Neo4j.client false).Cypher queryNodeQuery (worldAfter false 1).db).2 =
      Except.ok [[Field.node ⟨0, [("name", Scalar.str "Tom Hanks")]⟩]] ∧
    queryNode (Neo4j.client false) (worldAfter false 1) =
      Outcome.done ⟨(worldAfter false 1).db,
        [Printed.createNode [("name", Scalar.str "Tom Hanks")],
         Printed.queryNode [("name", Scalar.str "Tom Hanks")]]⟩ :=
  ⟨by rfl, by decide,
   (queryNode_fatal_iff (Neo4j.client false) freshWorld).2.2.1 [] (by rfl) (by decide),
   by rfl,
   (queryNode_fatal_iff (Neo4j.client false) (worldAfter false 1)).2.2.2.1
     [Field.node ⟨0, [("name", Scalar.str "Tom Hanks")]⟩] (by rfl)⟩

set_option maxRecDepth 100000 in
/-- Witness of C3 on the concrete database: after the first five steps of `main`
the query returns the two movies and `queryMovies` prints both; when a third
movie was created before the step (a second `createMovie` after step 4), the query
returns three rows and `queryMovies` panics with the length message. -/
theorem queryMovies_fatal_iff_witness :
    ((Neo4j.client false).Cypher queryMoviesQuery (worldAfter false 5).db).2 =
      Except.ok [[Field.node ⟨1, [("title", Scalar.str "Sleepless in Seattle")]⟩],
                 [Field.node ⟨2, [("title", Scalar.str "Forrest Gump")]⟩]] ∧
    (queryMovies (Neo4j.client false) (worldAfter false 5)).world.out =
      (worldAfter false 5).out ++
        [Printed.queryMovies,
         Printed.nodeLine 0 [("title", Scalar.str "Sleepless in Seattle")],
         Printed.nodeLine 1 [("title", Scalar.str "Forrest Gump")]] ∧
    (resOf ((Neo4j.client false).Cypher queryMoviesQuery
      (createMovie (Neo4j.client false) (worldAfter false 4)).world.db).2).length = 3 ∧
    (queryMovies (Neo4j.client false)
      (createMovie (Neo4j.client false) (worldAfter false 4)).world).panic? =
        some (Panic.resultsLen 3 2) :=
  ⟨by rfl,
   congrArg (fun o => o.world.out)
     ((queryMovies_fatal_iff (Neo4j.client false) (worldAfter false 5)).2.2.2.1
       [Field.node ⟨1, [("title", Scalar.str "Sleepless in Seattle")]⟩]
       [Field.node ⟨2, [("title", Scalar.str "Forrest Gump")]⟩] (by rfl)),
   by decide,
   congrArg Outcome.panic?
     ((queryMovies_fatal_iff (Neo4j.client false)
       (createMovie (Neo4j.client false) (worldAfter false 4)).world).2.2.1
       (resOf ((Neo4j.client false).Cypher queryMoviesQuery
         (createMovie (Neo4j.client false) (worldAfter false 4)).world.db).2)
       (by rfl) (by decide))⟩

/-- Witness of C9 on the concrete database: on the empty database both queries
match no actor, return no row, and both steps panic with index out of range;
after the first three (four) steps of `main` the query of `createUnique`
(`setNodeProperty`) returns one row and the step returns. -/
theorem res0_without_length_check_witness :
    ((Neo4j.client false).Cypher createUniqueQuery freshWorld.db).2 = Except.ok [] ∧
    createUnique (Neo4j.client false) freshWorld =
      Outcome.panicked (Panic.indexOutOfRange 0 0) freshWorld ∧
    ((Neo4j.client false).Cypher setNodePropertyQuery freshWorld.db).2 = Except.ok [] ∧
    setNodeProperty (Neo4j.client false) freshWorld =
      Outcome.panicked (Panic.indexOutOfRange 0 0) freshWorld ∧
    ((Neo4j.client false).Cypher createUniqueQuery (worldAfter false 3).db).2 =
      Except.ok [[Field.str "", Field.str "", Field.str ""]] ∧
    (createUnique (Neo4j.client false) (worldAfter false 3)).isPanic = false ∧
    ((Neo4j.client false).Cypher setNodePropertyQuery (worldAfter false 4).db).2 =
      Except.ok [[Field.str "Tom Hanks", Field.str ""]] ∧
    (setNodeProperty (Neo4j.client false) (worldAfter false 4)).isPanic = false ∧
    Graph.empty.actorsNamed (Scalar.str "Tom Hanks") = [] ∧
    setNodeProperty (Neo4j.client true) freshWorld =
      Outcome.panicked (Panic.indexOutOfRange 0 0) freshWorld :=
  ⟨by rfl,
   (res0_without_length_check (Neo4j.client false) freshWorld).2.1 (by rfl),
   by rfl,
   (res0_without_length_check (Neo4j.client false) freshWorld).2.2.2.2.1 (by rfl),
   by rfl,
   congrArg Outcome.isPanic
     ((res0_without_length_check (Neo4j.client false) (worldAfter false 3)).2.2.1
       [Field.str "", Field.str "", Field.str ""] [] (by rfl)),
   by rfl,
   congrArg Outcome.isPanic
     ((res0_without_length_check (Neo4j.client false) (worldAfter false 4)).2.2.2.2.2.1
       [Field.str "Tom Hanks", Field.str ""] [] (by rfl)),
   by rfl,
   ((res0_without_length_check (Neo4j.client false) freshWorld).2.2.2.2.2.2
     true Graph.empty [] (by rfl)).2⟩

set_option maxRecDepth 100000 in
/-- C4: starting from the freshly reset database with every call reaching the
database, after one run of `main` the graph holds exactly one node labelled
`Actor`, exactly two nodes labelled `Movie` and exactly two relationships; each
relationship has type `ACTED_IN`, starts at the actor and ends at a movie, and each
movie is the end of exactly one of them.  This holds whether or not the client
reports a row that does not fit the result record; when it does not report it,
`main` returns. -/
theorem main_once_graph (strict : Bool) :
    ((main (Neo4j.client strict) freshWorld).graph.labelled "Actor").length = 1 ∧
    ((main (Neo4j.client strict) freshWorld).graph.labelled "Movie").length = 2 ∧
    (main (Neo4j.client strict) freshWorld).graph.nodes.length = 3 ∧
    ((main (Neo4j.client strict) freshWorld).graph.nodes.map GNode.id).Nodup ∧
    (main (Neo4j.client strict) freshWorld).graph.rels.length = 2 ∧
    (∀ r ∈ (main (Neo4j.client strict) freshWorld).graph.rels,
      r.type = "ACTED_IN" ∧
      r.start ∈ ((main (Neo4j.client strict) freshWorld).graph.labelled "Actor").map GNode.id ∧
      r.stop ∈ ((main (Neo4j.client strict) freshWorld).graph.labelled "Movie").map GNode.id) ∧
    (∀ m ∈ (main (Neo4j.client strict) freshWorld).graph.labelled "Movie",
      ((main (Neo4j.client strict) freshWorld).graph.into m.id).length = 1) ∧
    (main (Neo4j.client false) freshWorld).isPanic = false := by
  cases strict <;> decide

set_option maxRecDepth 100000 in
/-- C5, as stated, fails: after two runs of `main` on the same database without a
reset there is one node titled "Sleepless in Seattle", not two, whether or not the
client reports a row that does not fit the result record. -/
theorem main_twice_no_duplicate_movie :
    ¬ (2 ≤ ((main (Neo4j.client false)
        (main (Neo4j.client false) freshWorld).world).graph.titled
          "Sleepless in Seattle").length) ∧
    ¬ (2 ≤ ((main (Neo4j.client true)
        (main (Neo4j.client true) freshWorld).world).graph.titled
          "Sleepless in Seattle").length) := by
  decide

set_option maxRecDepth 100000 in
/-- C5, amended: a second run of `main` without a reset creates a second actor
named "Tom Hanks" and then panics in `queryNode` (two rows, one expected) before
`createMovie` or `createUnique` run, so it leaves one "Sleepless in Seattle" node,
one "Forrest Gump" node and two relationships.  It is the step `createMovie` that
enforces no uniqueness: run once more after step 3 it leaves two "Sleepless in
Seattle" nodes; whereas `createUnique` run a second time after step 4 leaves the
graph unchanged, with one "Forrest Gump" node and one relationship into it. -/
theorem second_run_and_repeated_steps (strict : Bool) :
    (main (Neo4j.client strict) (main (Neo4j.client strict) freshWorld).world).panic? =
      some (Panic.resultsLen 2 1) ∧
    (main (Neo4j.client strict) (main (Neo4j.client strict) freshWorld).world).world.out =
      (main (Neo4j.client strict) freshWorld).world.out ++
        [Printed.createNode [("name", Scalar.str "Tom Hanks")]] ∧
    ((main (Neo4j.client strict)
      (main (Neo4j.client strict) freshWorld).world).graph.labelled "Actor").length = 2 ∧
    ((main (Neo4j.client strict)
      (main (Neo4j.client strict) freshWorld).world).graph.titled
        "Sleepless in Seattle").length = 1 ∧
    ((main (Neo4j.client strict)
      (main (Neo4j.client strict) freshWorld).world).graph.titled "Forrest Gump").length = 1 ∧
    (main (Neo4j.client strict)
      (main (Neo4j.client strict) freshWorld).world).graph.rels.length = 2 ∧
    ((createMovie (Neo4j.client strict) (worldAfter strict 3)).graph.titled
      "Sleepless in Seattle").length = 2 ∧
    (createMovie (Neo4j.client strict) (worldAfter strict 3)).graph.rels.length = 2 ∧
    (createUnique (Neo4j.client strict) (worldAfter strict 4)).isPanic = false ∧
    (createUnique (Neo4j.client strict) (worldAfter strict 4)).graph =
      (worldAfter strict 4).db.graph ∧
    ((worldAfter strict 4).db.graph.titled "Forrest Gump").length = 1 ∧
    (∀ m ∈ (worldAfter strict 4).db.graph.titled "Forrest Gump",
      ((worldAfter strict 4).db.graph.into m.id).length = 1) := by
  cases strict <;> decide

set_option maxRecDepth 100000 in
/-- C6, evaluated on the code: the statement of `createUnique` returns the single
column `r`, while the result record is decoded from the columns `a.name`,
`type(r)` and `b.name`, none of which matches it.  Run after the first three steps
of `main` on the fresh database, the step does add exactly one `ACTED_IN`
relationship from the actor to a new movie titled "Forrest Gump", and it returns,
but the row it decodes has three empty fields and it prints `"" "" ""`, not
`("Tom Hanks", "ACTED_IN", "Forrest Gump")`. -/
theorem createUnique_prints_empty_fields (strict : Bool) :
    returnColumns createUniqueQuery.Statement = ["r"] ∧
    (createUniqueQuery.Result.getD []).map FieldDecl.key = ["a.name", "type(r)", "b.name"] ∧
    (∀ key ∈ (createUniqueQuery.Result.getD []).map FieldDecl.key,
      ∀ col ∈ returnColumns createUniqueQuery.Statement, keyMatches key col = false) ∧
    (createUnique (Neo4j.client strict) (worldAfter strict 3)).isPanic = false ∧
    (createUnique (Neo4j.client strict) (worldAfter strict 3)).world.out =
      (worldAfter strict 3).out ++ [Printed.createUnique "" "" ""] ∧
    (createUnique (Neo4j.client strict) (worldAfter strict 3)).world.out ≠
      (worldAfter strict 3).out ++ [Printed.createUnique "Tom Hanks" "ACTED_IN" "Forrest Gump"] ∧
    (createUnique (Neo4j.client strict) (worldAfter strict 3)).graph.rels =
      (worldAfter strict 3).db.graph.rels ++ [⟨1, 0, "ACTED_IN", 2⟩] ∧
    (createUnique (Neo4j.client strict) (worldAfter strict 3)).graph.node? 0 =
      some ⟨0, ["Actor"], [("name", Scalar.str "Tom Hanks")]⟩ ∧
    (createUnique (Neo4j.client strict) (worldAfter strict 3)).graph.node? 2 =
      some ⟨2, ["Movie"], [("title", Scalar.str "Forrest Gump")]⟩ ∧
    ((worldAfter strict 3).db.graph.titled "Forrest Gump").length = 0 := by
  cases strict <;> decide

set_option maxRecDepth 100000 in
/-- C7, evaluated on the code: run after the first four steps of `main` on the
fresh database, the statement of `setNodeProperty` sets the actor's `DoB` to the
integer 1944 and returns the row `("Tom Hanks", 1944)` with `actor.DoB` a number,
but the field `DoB` of the result record is a Go `string`, which no number can be
stored into.  A client that reports the misfit makes the step panic, printing
nothing; a client that does not report it makes the step print
`("Tom Hanks", "")`.  In neither case is 1944 decoded or printed. -/
theorem setNodeProperty_dob_not_decoded :
    (∀ strict : Bool, ∀ a ∈ (setNodeProperty (Neo4j.client strict)
        (worldAfter strict 4)).graph.labelled "Actor",
      a.props.lookup "DoB" = some (Scalar.int 1944)) ∧
    (∀ strict : Bool, ((setNodeProperty (Neo4j.client strict)
        (worldAfter strict 4)).graph.labelled "Actor").length = 1) ∧
    (∀ strict : Bool,
      (execute setNodePropertyQuery.Statement setNodePropertyQuery.Parameters
        (worldAfter strict 4).db.graph).map Prod.snd =
      Except.ok ⟨["actor.name", "actor.DoB"], [[Cell.str "Tom Hanks", Cell.num 1944]]⟩) ∧
    (setNodePropertyQuery.Result.getD []).map FieldDecl.type = [GoType.string, GoType.string] ∧
    (∀ n : Int, decodeField GoType.string (some (Cell.num n)) = (Field.str "", true)) ∧
    (setNodeProperty (Neo4j.client true) (worldAfter true 4)).panic? =
      some (Panic.error "UnmarshalTypeError") ∧
    (setNodeProperty (Neo4j.client true) (worldAfter true 4)).world.out =
      (worldAfter true 4).out ∧
    (setNodeProperty (Neo4j.client false) (worldAfter false 4)).isPanic = false ∧
    (setNodeProperty (Neo4j.client false) (worldAfter false 4)).world.out =
      (worldAfter false 4).out ++ [Printed.setNodeProperty "Tom Hanks" ""] := by
  refine ⟨?_, ?_, ?_, ?_, ?_, ?_, ?_, ?_, ?_⟩
  · intro strict
    cases strict <;> decide
  · intro strict
    cases strict <;> decide
  · intro strict
    cases strict <;> rfl
  · decide
  · intro n
    rfl
  · decide
  · decide
  · decide
  · decide

set_option maxRecDepth 100000 in
/-- C8, evaluated on the code: `createNode` panics exactly when the call that
creates the node returns an error, whatever `AddLabel` returns.  On a database
whose second call (`AddLabel`) fails, the step returns and prints its result line,
and the node it leaves carries no label; a later `queryNode` then finds no actor.
When both calls succeed, one new node exists and carries the label `Actor`. -/
theorem createNode_ignores_addLabel_error :
    (∀ (σ : Type) (c : Client σ) (w : World σ),
      (createNode c w).isPanic =
        (errOf (c.CreateNode [("name", Scalar.str "Tom Hanks")] w.db).2).isSome) ∧
    (∀ strict : Bool,
      ((Neo4j.client strict).AddLabel ⟨0, [("name", Scalar.str "Tom Hanks")]⟩ "Actor"
        ((Neo4j.client strict).CreateNode [("name", Scalar.str "Tom Hanks")]
          secondCallFails.db).1).2 = Except.error "connection refused") ∧
    (∀ strict : Bool, (createNode (Neo4j.client strict) secondCallFails).isPanic = false) ∧
    (∀ strict : Bool, (createNode (Neo4j.client strict) secondCallFails).world.out =
      [Printed.createNode [("name", Scalar.str "Tom Hanks")]]) ∧
    (∀ strict : Bool, (createNode (Neo4j.client strict) secondCallFails).graph =
      ⟨[⟨0, [], [("name", Scalar.str "Tom Hanks")]⟩], []⟩) ∧
    (∀ strict : Bool, (main (Neo4j.client strict) secondCallFails).panic? =
      some (Panic.resultsLen 0 1)) ∧
    (∀ strict : Bool, (createNode (Neo4j.client strict) freshWorld).graph =
      ⟨[⟨0, ["Actor"], [("name", Scalar.str "Tom Hanks")]⟩], []⟩) := by
  refine ⟨?_, ?_, ?_, ?_, ?_, ?_, ?_⟩
  · intro σ c w
    cases h : c.CreateNode [("name", Scalar.str "Tom Hanks")] w.db with
    | mk s1 r =>
      cases r <;> simp [createNode, h, errOf, Outcome.isPanic]
  · intro strict
    cases strict <;> rfl
  · intro strict
    cases strict <;> decide
  · intro strict
    cases strict <;> decide
  · intro strict
    cases strict <;> decide
  · intro strict
    cases strict <;> decide
  · intro strict
    cases strict <;> decide

set_option maxRecDepth 100000 in
/-- C10: for each of the six query steps, every parameter placeholder `{name}` that
occurs in the statement is a key of the `Parameters` mapping of the same query.
The converse fails: `queryMovies` supplies the key `actorSub`, and its statement
has no placeholder. -/
theorem placeholders_are_bound :
    (∀ q ∈ queries, ∀ name ∈ placeholders q.Statement, name ∈ q.keys) ∧
    queries.map (fun q => placeholders q.Statement) =
      [["actorSub"], ["actorSub", "movieSub"], ["actorSub", "movieSub"],
       ["actorSub", "dobSub"], [], []] ∧
    "actorSub" ∈ queryMoviesQuery.keys ∧
    "actorSub" ∉ placeholders queryMoviesQuery.Statement := by
  decide

end Neo4jTutorial
